import Mathlib

/-!
Verification of the musical-lang-converter repository: the Media Container
Encoder (`createWavUrl` in `src/services/gemini.ts`), the speech-synthesis
response handling (`generateDubbedAudio`), and the session Orchestrator
(`src/App.tsx`).  Data types follow `src/types.ts` (bundled with
`AudioVisualizer.tsx`).
-/

namespace SonicDub

/-! ## Data model (src/types.ts) -/

/-- `AppState` enumeration. -/
inductive AppState where
  | IDLE
  | ANALYZING
  | LYRICS_REVIEW
  | DUBBING
  | COMPLETE
  | ERROR
deriving DecidableEq, Repr

/-- A user-selected file (`File`): only the fields the code reads. -/
structure FileData where
  name : String
  size : Nat
  mimeType : String
deriving DecidableEq, Repr

/-- `AnalysisResult`.  `gender` is kept as a string because the runtime value
comes from parsed JSON (the TypeScript union is only a static annotation and
`App.tsx` casts it). -/
structure AnalysisResult where
  language : String
  genre : String
  bpm : Nat
  emotion : String
  gender : String
  lyrics : List String
  summary : String
deriving DecidableEq, Repr

/-- `TranslatedLine`. -/
structure TranslatedLine where
  original : String
  translated : String
deriving DecidableEq, Repr

/-- `SongData`: the Session aggregate.  Media resource handles
(`URL.createObjectURL` results) are modelled as strings. -/
structure SongData where
  file : Option FileData
  audioUrl : Option String
  analysis : Option AnalysisResult
  translations : List TranslatedLine
  targetLanguage : String
  dubbedAudioUrl : Option String
deriving DecidableEq, Repr

/-- The `VOICES` lookup table from `src/types.ts`. -/
structure VoiceTable where
  MALE : String
  FEMALE : String
  NEUTRAL : String
deriving DecidableEq, Repr

def VOICES : VoiceTable :=
  { MALE := "Fenrir", FEMALE := "Kore", NEUTRAL := "Puck" }

/-! ## Media Container Encoder (`createWavUrl`, src/services/gemini.ts)

The PCM payload is modelled as the list of decoded bytes (the code decodes the
base64 string with `atob`/`charCodeAt` into a `Uint8Array`).  `DataView`
writes are little-endian as in the source (`true` flag); `setUint32` /
`setUint16` truncate their argument modulo `2^32` / `2^16`. -/

/-- Bytes written by `view.setUint32(off, v, true)`. -/
def le32 (v : Nat) : List Nat :=
  let w := v % 2 ^ 32
  [w % 256, w / 256 % 256, w / 65536 % 256, w / 16777216 % 256]

/-- Bytes written by `view.setUint16(off, v, true)`. -/
def le16 (v : Nat) : List Nat :=
  let w := v % 2 ^ 16
  [w % 256, w / 256 % 256]

/-- Bytes written by `writeString` (one `charCodeAt` per character). -/
def asciiBytes (s : String) : List Nat :=
  s.toList.map Char.toNat

/-- `const sampleRate = 24000`. -/
def wavSampleRate : Nat := 24000

/-- `const numChannels = 1`. -/
def wavNumChannels : Nat := 1

/-- `const bitsPerSample = 16`. -/
def wavBitsPerSample : Nat := 16

/-- The 44-byte header built by `createWavUrl`, fields in offset order
(offsets 0, 4, 8, 12, 16, 20, 22, 24, 28, 32, 34, 36, 40). -/
def wavHeader (pcmLen : Nat) : List Nat :=
  asciiBytes "RIFF" ++
  le32 (36 + pcmLen) ++
  asciiBytes "WAVE" ++
  asciiBytes "fmt " ++
  le32 16 ++
  le16 1 ++
  le16 wavNumChannels ++
  le32 wavSampleRate ++
  le32 (wavSampleRate * wavNumChannels * 2) ++
  le16 (wavNumChannels * 2) ++
  le16 wavBitsPerSample ++
  asciiBytes "data" ++
  le32 pcmLen

/-- The byte content of the `Blob([header, pcmData])` that `createWavUrl`
wraps into an object URL. -/
def createWavBytes (pcmData : List Nat) : List Nat :=
  wavHeader pcmData.length ++ pcmData

/-- Little-endian decode of two bytes at `off`. -/
def readLE16 (bytes : List Nat) (off : Nat) : Nat :=
  bytes.getD off 0 + 256 * bytes.getD (off + 1) 0

/-- Little-endian decode of four bytes at `off`. -/
def readLE32 (bytes : List Nat) (off : Nat) : Nat :=
  bytes.getD off 0 + 256 * bytes.getD (off + 1) 0 +
    65536 * bytes.getD (off + 2) 0 + 16777216 * bytes.getD (off + 3) 0

/-- Index/length evaluation for a 44-byte prefix followed by a payload; used
to read header fields of `createWavBytes` without heavy kernel reduction. -/
theorem cons44_layout (b0 : Nat) (b1 : Nat) (b2 : Nat) (b3 : Nat) (b4 : Nat) (b5 : Nat) (b6 : Nat) (b7 : Nat) (b8 : Nat) (b9 : Nat) (b10 : Nat) (b11 : Nat) (b12 : Nat) (b13 : Nat) (b14 : Nat) (b15 : Nat) (b16 : Nat) (b17 : Nat) (b18 : Nat) (b19 : Nat) (b20 : Nat) (b21 : Nat) (b22 : Nat) (b23 : Nat) (b24 : Nat) (b25 : Nat) (b26 : Nat) (b27 : Nat) (b28 : Nat) (b29 : Nat) (b30 : Nat) (b31 : Nat) (b32 : Nat) (b33 : Nat) (b34 : Nat) (b35 : Nat) (b36 : Nat) (b37 : Nat) (b38 : Nat) (b39 : Nat) (b40 : Nat) (b41 : Nat) (b42 : Nat) (b43 : Nat) (t : List Nat) :
    ((b0 :: b1 :: b2 :: b3 :: b4 :: b5 :: b6 :: b7 :: b8 :: b9 :: b10 :: b11 :: b12 :: b13 :: b14 :: b15 :: b16 :: b17 :: b18 :: b19 :: b20 :: b21 :: b22 :: b23 :: b24 :: b25 :: b26 :: b27 :: b28 :: b29 :: b30 :: b31 :: b32 :: b33 :: b34 :: b35 :: b36 :: b37 :: b38 :: b39 :: b40 :: b41 :: b42 :: b43 :: []) ++ t).length = 44 + t.length ∧
    ((b0 :: b1 :: b2 :: b3 :: b4 :: b5 :: b6 :: b7 :: b8 :: b9 :: b10 :: b11 :: b12 :: b13 :: b14 :: b15 :: b16 :: b17 :: b18 :: b19 :: b20 :: b21 :: b22 :: b23 :: b24 :: b25 :: b26 :: b27 :: b28 :: b29 :: b30 :: b31 :: b32 :: b33 :: b34 :: b35 :: b36 :: b37 :: b38 :: b39 :: b40 :: b41 :: b42 :: b43 :: []) ++ t).getD 4 0 = b4 ∧
    ((b0 :: b1 :: b2 :: b3 :: b4 :: b5 :: b6 :: b7 :: b8 :: b9 :: b10 :: b11 :: b12 :: b13 :: b14 :: b15 :: b16 :: b17 :: b18 :: b19 :: b20 :: b21 :: b22 :: b23 :: b24 :: b25 :: b26 :: b27 :: b28 :: b29 :: b30 :: b31 :: b32 :: b33 :: b34 :: b35 :: b36 :: b37 :: b38 :: b39 :: b40 :: b41 :: b42 :: b43 :: []) ++ t).getD 5 0 = b5 ∧
    ((b0 :: b1 :: b2 :: b3 :: b4 :: b5 :: b6 :: b7 :: b8 :: b9 :: b10 :: b11 :: b12 :: b13 :: b14 :: b15 :: b16 :: b17 :: b18 :: b19 :: b20 :: b21 :: b22 :: b23 :: b24 :: b25 :: b26 :: b27 :: b28 :: b29 :: b30 :: b31 :: b32 :: b33 :: b34 :: b35 :: b36 :: b37 :: b38 :: b39 :: b40 :: b41 :: b42 :: b43 :: []) ++ t).getD 6 0 = b6 ∧
    ((b0 :: b1 :: b2 :: b3 :: b4 :: b5 :: b6 :: b7 :: b8 :: b9 :: b10 :: b11 :: b12 :: b13 :: b14 :: b15 :: b16 :: b17 :: b18 :: b19 :: b20 :: b21 :: b22 :: b23 :: b24 :: b25 :: b26 :: b27 :: b28 :: b29 :: b30 :: b31 :: b32 :: b33 :: b34 :: b35 :: b36 :: b37 :: b38 :: b39 :: b40 :: b41 :: b42 :: b43 :: []) ++ t).getD 7 0 = b7 ∧
    ((b0 :: b1 :: b2 :: b3 :: b4 :: b5 :: b6 :: b7 :: b8 :: b9 :: b10 :: b11 :: b12 :: b13 :: b14 :: b15 :: b16 :: b17 :: b18 :: b19 :: b20 :: b21 :: b22 :: b23 :: b24 :: b25 :: b26 :: b27 :: b28 :: b29 :: b30 :: b31 :: b32 :: b33 :: b34 :: b35 :: b36 :: b37 :: b38 :: b39 :: b40 :: b41 :: b42 :: b43 :: []) ++ t).getD 24 0 = b24 ∧
    ((b0 :: b1 :: b2 :: b3 :: b4 :: b5 :: b6 :: b7 :: b8 :: b9 :: b10 :: b11 :: b12 :: b13 :: b14 :: b15 :: b16 :: b17 :: b18 :: b19 :: b20 :: b21 :: b22 :: b23 :: b24 :: b25 :: b26 :: b27 :: b28 :: b29 :: b30 :: b31 :: b32 :: b33 :: b34 :: b35 :: b36 :: b37 :: b38 :: b39 :: b40 :: b41 :: b42 :: b43 :: []) ++ t).getD 25 0 = b25 ∧
    ((b0 :: b1 :: b2 :: b3 :: b4 :: b5 :: b6 :: b7 :: b8 :: b9 :: b10 :: b11 :: b12 :: b13 :: b14 :: b15 :: b16 :: b17 :: b18 :: b19 :: b20 :: b21 :: b22 :: b23 :: b24 :: b25 :: b26 :: b27 :: b28 :: b29 :: b30 :: b31 :: b32 :: b33 :: b34 :: b35 :: b36 :: b37 :: b38 :: b39 :: b40 :: b41 :: b42 :: b43 :: []) ++ t).getD 26 0 = b26 ∧
    ((b0 :: b1 :: b2 :: b3 :: b4 :: b5 :: b6 :: b7 :: b8 :: b9 :: b10 :: b11 :: b12 :: b13 :: b14 :: b15 :: b16 :: b17 :: b18 :: b19 :: b20 :: b21 :: b22 :: b23 :: b24 :: b25 :: b26 :: b27 :: b28 :: b29 :: b30 :: b31 :: b32 :: b33 :: b34 :: b35 :: b36 :: b37 :: b38 :: b39 :: b40 :: b41 :: b42 :: b43 :: []) ++ t).getD 27 0 = b27 ∧
    ((b0 :: b1 :: b2 :: b3 :: b4 :: b5 :: b6 :: b7 :: b8 :: b9 :: b10 :: b11 :: b12 :: b13 :: b14 :: b15 :: b16 :: b17 :: b18 :: b19 :: b20 :: b21 :: b22 :: b23 :: b24 :: b25 :: b26 :: b27 :: b28 :: b29 :: b30 :: b31 :: b32 :: b33 :: b34 :: b35 :: b36 :: b37 :: b38 :: b39 :: b40 :: b41 :: b42 :: b43 :: []) ++ t).getD 32 0 = b32 ∧
    ((b0 :: b1 :: b2 :: b3 :: b4 :: b5 :: b6 :: b7 :: b8 :: b9 :: b10 :: b11 :: b12 :: b13 :: b14 :: b15 :: b16 :: b17 :: b18 :: b19 :: b20 :: b21 :: b22 :: b23 :: b24 :: b25 :: b26 :: b27 :: b28 :: b29 :: b30 :: b31 :: b32 :: b33 :: b34 :: b35 :: b36 :: b37 :: b38 :: b39 :: b40 :: b41 :: b42 :: b43 :: []) ++ t).getD 33 0 = b33 ∧
    ((b0 :: b1 :: b2 :: b3 :: b4 :: b5 :: b6 :: b7 :: b8 :: b9 :: b10 :: b11 :: b12 :: b13 :: b14 :: b15 :: b16 :: b17 :: b18 :: b19 :: b20 :: b21 :: b22 :: b23 :: b24 :: b25 :: b26 :: b27 :: b28 :: b29 :: b30 :: b31 :: b32 :: b33 :: b34 :: b35 :: b36 :: b37 :: b38 :: b39 :: b40 :: b41 :: b42 :: b43 :: []) ++ t).getD 34 0 = b34 ∧
    ((b0 :: b1 :: b2 :: b3 :: b4 :: b5 :: b6 :: b7 :: b8 :: b9 :: b10 :: b11 :: b12 :: b13 :: b14 :: b15 :: b16 :: b17 :: b18 :: b19 :: b20 :: b21 :: b22 :: b23 :: b24 :: b25 :: b26 :: b27 :: b28 :: b29 :: b30 :: b31 :: b32 :: b33 :: b34 :: b35 :: b36 :: b37 :: b38 :: b39 :: b40 :: b41 :: b42 :: b43 :: []) ++ t).getD 35 0 = b35 ∧
    ((b0 :: b1 :: b2 :: b3 :: b4 :: b5 :: b6 :: b7 :: b8 :: b9 :: b10 :: b11 :: b12 :: b13 :: b14 :: b15 :: b16 :: b17 :: b18 :: b19 :: b20 :: b21 :: b22 :: b23 :: b24 :: b25 :: b26 :: b27 :: b28 :: b29 :: b30 :: b31 :: b32 :: b33 :: b34 :: b35 :: b36 :: b37 :: b38 :: b39 :: b40 :: b41 :: b42 :: b43 :: []) ++ t).getD 40 0 = b40 ∧
    ((b0 :: b1 :: b2 :: b3 :: b4 :: b5 :: b6 :: b7 :: b8 :: b9 :: b10 :: b11 :: b12 :: b13 :: b14 :: b15 :: b16 :: b17 :: b18 :: b19 :: b20 :: b21 :: b22 :: b23 :: b24 :: b25 :: b26 :: b27 :: b28 :: b29 :: b30 :: b31 :: b32 :: b33 :: b34 :: b35 :: b36 :: b37 :: b38 :: b39 :: b40 :: b41 :: b42 :: b43 :: []) ++ t).getD 41 0 = b41 ∧
    ((b0 :: b1 :: b2 :: b3 :: b4 :: b5 :: b6 :: b7 :: b8 :: b9 :: b10 :: b11 :: b12 :: b13 :: b14 :: b15 :: b16 :: b17 :: b18 :: b19 :: b20 :: b21 :: b22 :: b23 :: b24 :: b25 :: b26 :: b27 :: b28 :: b29 :: b30 :: b31 :: b32 :: b33 :: b34 :: b35 :: b36 :: b37 :: b38 :: b39 :: b40 :: b41 :: b42 :: b43 :: []) ++ t).getD 42 0 = b42 ∧
    ((b0 :: b1 :: b2 :: b3 :: b4 :: b5 :: b6 :: b7 :: b8 :: b9 :: b10 :: b11 :: b12 :: b13 :: b14 :: b15 :: b16 :: b17 :: b18 :: b19 :: b20 :: b21 :: b22 :: b23 :: b24 :: b25 :: b26 :: b27 :: b28 :: b29 :: b30 :: b31 :: b32 :: b33 :: b34 :: b35 :: b36 :: b37 :: b38 :: b39 :: b40 :: b41 :: b42 :: b43 :: []) ++ t).getD 43 0 = b43 := by
  refine ⟨?_, ?_, ?_, ?_, ?_, ?_, ?_, ?_, ?_, ?_, ?_, ?_, ?_, ?_, ?_, ?_, ?_⟩ <;> simp <;> omega

/-! ## Speech-synthesis response handling (`generateDubbedAudio`) -/

/-- `inlineData` of a response part; `data` is modelled as the base64-decoded
byte content of the audio payload (the empty base64 string decodes to `[]`,
which is exactly the falsy case of the source's truthiness test). -/
structure InlineData where
  data : List Nat
deriving DecidableEq, Repr

/-- One part of a candidate's content. -/
structure ResponsePart where
  text : Option String
  inlineData : Option InlineData
deriving DecidableEq, Repr

/-- `content` of a candidate. -/
structure Content where
  parts : List ResponsePart
deriving DecidableEq, Repr

/-- One response candidate. -/
structure Candidate where
  content : Option Content
  finishReason : Option String
deriving DecidableEq, Repr

/-- The `generateContent` response as inspected by `generateDubbedAudio`. -/
structure GenResponse where
  candidates : List Candidate
deriving DecidableEq, Repr

/-- `response.candidates?.[0]?.content?.parts?.[0]`. -/
def firstPart (resp : GenResponse) : Option ResponsePart :=
  (resp.candidates.head?.bind (fun c => c.content)).bind (fun c => c.parts.head?)

/-- `candidate?.content?.parts?.[0]?.inlineData?.data`. -/
def firstPartAudio (resp : GenResponse) : Option (List Nat) :=
  ((firstPart resp).bind (fun p => p.inlineData)).map (fun d => d.data)

/-- `candidate?.finishReason || 'UNKNOWN'` (JS `||`: `undefined` and the empty
string both fall back). -/
def finishReasonOf (candidate : Option Candidate) : String :=
  match candidate.bind (fun c => c.finishReason) with
  | none => "UNKNOWN"
  | some r => if r = "" then "UNKNOWN" else r

/-- The refusal error message built by `generateDubbedAudio`. -/
def refusalErrorMsg (t : String) : String :=
  "Model refused or failed to generate audio: " ++ t

/-- The no-audio error message built by `generateDubbedAudio`. -/
def noAudioErrorMsg (reason : String) : String :=
  "No audio data generated. Model finish reason: " ++ reason ++ "."

/-- `lines.map(l => l.translated).join('\n')`. -/
def dubbingText (lines : List TranslatedLine) : String :=
  String.intercalate "\n" (lines.map (fun l => l.translated))

/-- Voice selection in `generateDubbedAudio`: start from `VOICES.NEUTRAL`,
override for `'MALE'` and `'FEMALE'`. -/
def voiceNameFor (gender : String) : String :=
  if gender = "MALE" then VOICES.MALE
  else if gender = "FEMALE" then VOICES.FEMALE
  else VOICES.NEUTRAL

/-- The utterance text and voice identifier sent in the synthesis request. -/
structure SynthesisRequestInfo where
  text : String
  voiceName : String
deriving DecidableEq, Repr

/-- Request content built by `generateDubbedAudio` before the remote call. -/
def synthesisRequest (lines : List TranslatedLine) (gender : String) :
    SynthesisRequestInfo :=
  { text := dubbingText lines, voiceName := voiceNameFor gender }

/-- Response inspection of `generateDubbedAudio`: on success the returned
resource content is the WAV byte sequence wrapped by `createWavUrl`; a thrown
`Error` is modelled as `Except.error` carrying its message.  Mirrors the
source order: audio truthy `->` success; otherwise truthy text `->` refusal;
otherwise the finish-reason error. -/
def generateDubbedAudioResult (resp : GenResponse) : Except String (List Nat) :=
  let candidate := resp.candidates.head?
  let part := (candidate.bind (fun c => c.content)).bind (fun c => c.parts.head?)
  let audio := ((part.bind (fun p => p.inlineData)).map (fun d => d.data)).getD []
  if audio = [] then
    match part.bind (fun p => p.text) with
    | some t =>
        if t = "" then Except.error (noAudioErrorMsg (finishReasonOf candidate))
        else Except.error (refusalErrorMsg t)
    | none => Except.error (noAudioErrorMsg (finishReasonOf candidate))
  else
    Except.ok (createWavBytes audio)

/-! ## Session Orchestrator (src/App.tsx)

Each React handler is embedded as a pure function on the orchestrator model.
An asynchronous handler is split at its `await` boundary: a begin function
(the synchronous prefix, returning the updated model and the Gateway request
it fires, `none` when its guard returns early) and a resolve function (the
continuation applied to the settled remote outcome; a caught exception is the
`Except.error` case carrying the error message).  Per the single-threaded
cooperative model, triggers are serialized: no new trigger is accepted while
a call is outstanding. -/

/-- One remote call to the AI Service Gateway. -/
inductive GatewayRequest where
  | analyze (file : FileData)
  | translate (lyrics : List String) (targetLanguage : String)
      (originalLanguage : String) (bpm : Nat)
  | synthesize (lines : List TranslatedLine) (gender : String)
      (targetLanguage : String)
deriving DecidableEq, Repr

/-- The orchestrator's reactive state: `state`, `songData`, `error`,
`isDubbingLoading` (playback-only flags are presentation state, out of
scope). -/
structure Model where
  state : AppState
  songData : SongData
  error : Option String
  isDubbingLoading : Bool
deriving DecidableEq, Repr

/-- `useState` initial `SongData`. -/
def initialSongData : SongData :=
  { file := none, audioUrl := none, analysis := none, translations := [],
    targetLanguage := "Spanish", dubbedAudioUrl := none }

/-- The model at application start. -/
def initialModel : Model :=
  { state := AppState.IDLE, songData := initialSongData, error := none,
    isDubbingLoading := false }

/-- `resetApp`. -/
def resetApp (_m : Model) : Model := initialModel

/-- `err.message || fallback` (empty message falls back). -/
def orFallback (msg fallback : String) : String :=
  if msg = "" then fallback else msg

/-- `handleFileUpload`: `f` is `event.target.files?.[0]`, `url` the object URL
the browser derives from the file. -/
def handleFileUpload (m : Model) (f : Option FileData) (url : String) :
    Model × Option GatewayRequest :=
  match f with
  | none => (m, none)
  | some file =>
      if 10 * 1024 * 1024 < file.size then
        ({ m with error := some "File size must be less than 10MB for this demo." },
         none)
      else
        ({ m with
            songData := { m.songData with file := some file, audioUrl := some url },
            error := none },
         none)

/-- Synchronous prefix of `startAnalysis` (up to the first `await`). -/
def startAnalysisBegin (m : Model) : Model × Option GatewayRequest :=
  match m.songData.file with
  | none => (m, none)
  | some file => ({ m with state := AppState.ANALYZING }, some (GatewayRequest.analyze file))

/-- Continuation of `startAnalysis` on the settled analysis outcome. -/
def startAnalysisResolve (m : Model) (result : Except String AnalysisResult) : Model :=
  match result with
  | Except.ok analysis =>
      { m with songData := { m.songData with analysis := some analysis },
               state := AppState.LYRICS_REVIEW }
  | Except.error e =>
      { m with error := some (orFallback e "Analysis failed. Please try again."),
               state := AppState.IDLE }

/-- Synchronous prefix of `handleTranslate`. -/
def handleTranslateBegin (m : Model) : Model × Option GatewayRequest :=
  match m.songData.analysis with
  | none => (m, none)
  | some analysis =>
      ({ m with state := AppState.ANALYZING },
       some (GatewayRequest.translate analysis.lyrics m.songData.targetLanguage
              analysis.language analysis.bpm))

/-- Continuation of `handleTranslate` on the settled translation outcome. -/
def handleTranslateResolve (m : Model) (result : Except String (List TranslatedLine)) :
    Model :=
  match result with
  | Except.ok translations =>
      { m with songData := { m.songData with translations := translations },
               state := AppState.DUBBING }
  | Except.error e =>
      { m with error := some (orFallback e "Translation failed."),
               state := AppState.LYRICS_REVIEW }

/-- Synchronous prefix of `handleDubbing`. -/
def handleDubbingBegin (m : Model) : Model × Option GatewayRequest :=
  match m.songData.analysis with
  | none => (m, none)
  | some analysis =>
      if m.songData.translations = [] then (m, none)
      else
        ({ m with isDubbingLoading := true, error := none },
         some (GatewayRequest.synthesize m.songData.translations analysis.gender
                m.songData.targetLanguage))

/-- Continuation of `handleDubbing`; the `finally` clears the loading flag on
both paths. -/
def handleDubbingResolve (m : Model) (result : Except String String) : Model :=
  match result with
  | Except.ok url =>
      { m with songData := { m.songData with dubbedAudioUrl := some url },
               state := AppState.COMPLETE, isDubbingLoading := false }
  | Except.error e =>
      { m with error := some (orFallback e "Dubbing generation failed."),
               isDubbingLoading := false }

/-- The target-language selection button in the LYRICS_REVIEW view. -/
def selectTargetLanguage (m : Model) (code : String) : Model :=
  { m with songData := { m.songData with targetLanguage := code } }

/-- Whether an asynchronous handler is in flight (the suspended continuation). -/
inductive Phase where
  | ready
  | awaitingAnalysis
  | awaitingTranslation
  | awaitingSynthesis
deriving DecidableEq, Repr

/-- Orchestrator model plus in-flight control state. -/
structure Config where
  model : Model
  phase : Phase
deriving DecidableEq, Repr

/-- The configuration at application start. -/
def initialConfig : Config := { model := initialModel, phase := Phase.ready }

/-- One observable transition of the orchestrator.  Trigger availability
follows the rendering conditions of `App.tsx` (the file input only in IDLE,
the analyze button only in IDLE with a file, translation controls only in
LYRICS_REVIEW with an analysis, the synthesis button only in DUBBING); resolve
steps fire the stored continuation on the settled remote outcome. -/
inductive Step : Config → Config → Prop where
  | fileUpload (c : Config) (f : Option FileData) (url : String) :
      c.phase = Phase.ready → c.model.state = AppState.IDLE →
      Step c { model := (handleFileUpload c.model f url).1, phase := Phase.ready }
  | analysisBegin (c : Config) :
      c.phase = Phase.ready → c.model.state = AppState.IDLE →
      c.model.songData.file.isSome →
      Step c { model := (startAnalysisBegin c.model).1, phase := Phase.awaitingAnalysis }
  | analysisResolve (c : Config) (r : Except String AnalysisResult) :
      c.phase = Phase.awaitingAnalysis →
      Step c { model := startAnalysisResolve c.model r, phase := Phase.ready }
  | languageSelect (c : Config) (code : String) :
      c.phase = Phase.ready → c.model.state = AppState.LYRICS_REVIEW →
      c.model.songData.analysis.isSome →
      Step c { model := selectTargetLanguage c.model code, phase := Phase.ready }
  | translateBegin (c : Config) :
      c.phase = Phase.ready → c.model.state = AppState.LYRICS_REVIEW →
      c.model.songData.analysis.isSome →
      Step c { model := (handleTranslateBegin c.model).1, phase := Phase.awaitingTranslation }
  | translateResolve (c : Config) (r : Except String (List TranslatedLine)) :
      c.phase = Phase.awaitingTranslation →
      Step c { model := handleTranslateResolve c.model r, phase := Phase.ready }
  | dubbingBegin (c : Config) :
      c.phase = Phase.ready → c.model.state = AppState.DUBBING →
      c.model.songData.analysis.isSome → c.model.songData.translations ≠ [] →
      Step c { model := (handleDubbingBegin c.model).1, phase := Phase.awaitingSynthesis }
  | dubbingResolve (c : Config) (r : Except String String) :
      c.phase = Phase.awaitingSynthesis →
      Step c { model := handleDubbingResolve c.model r, phase := Phase.ready }
  | reset (c : Config) :
      c.phase = Phase.ready →
      Step c { model := resetApp c.model, phase := Phase.ready }

/-- Configurations reachable from application start. -/
inductive Reachable : Config → Prop where
  | start : Reachable initialConfig
  | step {c c2 : Config} : Reachable c → Step c c2 → Reachable c2

/-! ## Theorems: Media Container Encoder -/

theorem asciiBytes_RIFF : asciiBytes "RIFF" = [82, 73, 70, 70] := by decide

theorem asciiBytes_WAVE : asciiBytes "WAVE" = [87, 65, 86, 69] := by decide

theorem asciiBytes_fmt : asciiBytes "fmt " = [102, 109, 116, 32] := by decide

theorem asciiBytes_data : asciiBytes "data" = [100, 97, 116, 97] := by decide

/-- The header as one explicit byte list. -/
theorem wavHeader_cons (L : Nat) :
    wavHeader L =
      82 :: 73 :: 70 :: 70 ::
      ((36 + L) % 2 ^ 32 % 256) :: ((36 + L) % 2 ^ 32 / 256 % 256) ::
      ((36 + L) % 2 ^ 32 / 65536 % 256) :: ((36 + L) % 2 ^ 32 / 16777216 % 256) ::
      87 :: 65 :: 86 :: 69 :: 102 :: 109 :: 116 :: 32 ::
      16 :: 0 :: 0 :: 0 :: 1 :: 0 :: 1 :: 0 ::
      192 :: 93 :: 0 :: 0 :: 128 :: 187 :: 0 :: 0 ::
      2 :: 0 :: 16 :: 0 :: 100 :: 97 :: 116 :: 97 ::
      (L % 2 ^ 32 % 256) :: (L % 2 ^ 32 / 256 % 256) ::
      (L % 2 ^ 32 / 65536 % 256) :: (L % 2 ^ 32 / 16777216 % 256) :: [] := by
  simp only [wavHeader, wavSampleRate, wavNumChannels, wavBitsPerSample,
    asciiBytes_RIFF, asciiBytes_WAVE, asciiBytes_fmt, asciiBytes_data, le32, le16,
    List.cons_append, List.nil_append]
  norm_num

/-- C1: for every PCM payload of length L, the Media Container Encoder
(`createWavUrl`) produces exactly 44 + L bytes in which, little-endian
throughout, offsets 4-7 hold L + 36, offsets 24-27 hold 24000, offsets 32-33
hold 2, offsets 34-35 hold 16, and offsets 40-43 hold L (each byte of a
32-bit field is the corresponding little-endian base-256 digit of its
value). -/
theorem createWavUrl_header_layout (pcm : List Nat) :
    (createWavBytes pcm).length = 44 + pcm.length ∧
    (createWavBytes pcm).getD 4 0 = (pcm.length + 36) % 256 ∧
    (createWavBytes pcm).getD 5 0 = (pcm.length + 36) / 256 % 256 ∧
    (createWavBytes pcm).getD 6 0 = (pcm.length + 36) / 65536 % 256 ∧
    (createWavBytes pcm).getD 7 0 = (pcm.length + 36) / 16777216 % 256 ∧
    readLE32 (createWavBytes pcm) 24 = 24000 ∧
    readLE16 (createWavBytes pcm) 32 = 2 ∧
    readLE16 (createWavBytes pcm) 34 = 16 ∧
    (createWavBytes pcm).getD 40 0 = pcm.length % 256 ∧
    (createWavBytes pcm).getD 41 0 = pcm.length / 256 % 256 ∧
    (createWavBytes pcm).getD 42 0 = pcm.length / 65536 % 256 ∧
    (createWavBytes pcm).getD 43 0 = pcm.length / 16777216 % 256 := by
  have h : createWavBytes pcm = wavHeader pcm.length ++ pcm := rfl
  rw [h, wavHeader_cons]
  obtain ⟨hlen, h4, h5, h6, h7, h24, h25, h26, h27, h32, h33, h34, h35, h40, h41, h42, h43⟩ :=
    cons44_layout 82 73 70 70
      ((36 + pcm.length) % 2 ^ 32 % 256) ((36 + pcm.length) % 2 ^ 32 / 256 % 256)
      ((36 + pcm.length) % 2 ^ 32 / 65536 % 256) ((36 + pcm.length) % 2 ^ 32 / 16777216 % 256)
      87 65 86 69 102 109 116 32 16 0 0 0 1 0 1 0 192 93 0 0 128 187 0 0 2 0 16 0 100 97 116 97
      (pcm.length % 2 ^ 32 % 256) (pcm.length % 2 ^ 32 / 256 % 256)
      (pcm.length % 2 ^ 32 / 65536 % 256) (pcm.length % 2 ^ 32 / 16777216 % 256) pcm
  refine ⟨hlen, ?_, ?_, ?_, ?_, ?_, ?_, ?_, ?_, ?_, ?_, ?_⟩
  · rw [h4]; omega
  · rw [h5]; omega
  · rw [h6]; omega
  · rw [h7]; omega
  · simp only [readLE32]
    norm_num [h24, h25, h26, h27]
  · simp only [readLE16]
    norm_num [h32, h33]
  · simp only [readLE16]
    norm_num [h34, h35]
  · rw [h40]; omega
  · rw [h41]; omega
  · rw [h42]; omega
  · rw [h43]; omega

/-! ## Theorems: synthesis request construction (C3) -/

/-- `String.intercalate.go` with a pre-appended accumulator. -/
theorem intercalate_go_shift (s acc : String) :
    ∀ (t : List String) (b : String),
      String.intercalate.go (acc ++ b) s t = acc ++ String.intercalate.go b s t
  | [], _ => rfl
  | x :: xs, b => by
    show String.intercalate.go (acc ++ b ++ s ++ x) s xs =
      acc ++ String.intercalate.go (b ++ s ++ x) s xs
    rw [String.append_assoc (acc ++ b) s x, String.append_assoc acc b (s ++ x),
      ← String.append_assoc b s x]
    exact intercalate_go_shift s acc xs (b ++ s ++ x)

/-- Unfolding rule of `String.intercalate` on a two-or-more element list. -/
theorem intercalate_cons_cons (s a b : String) (t : List String) :
    String.intercalate s (a :: b :: t) = a ++ s ++ String.intercalate s (b :: t) := by
  show String.intercalate.go ((a ++ s) ++ b) s t = (a ++ s) ++ String.intercalate.go b s t
  exact intercalate_go_shift s (a ++ s) t b

/-- C3: the synthesize operation joins the translated texts in sequence order
with newline separators into its utterance, and maps MALE to the fixed male
voice, FEMALE to the fixed female voice, and any other gender value to the
fixed neutral voice. -/
theorem synthesize_text_and_voice (lines rest : List TranslatedLine)
    (l l2 : TranslatedLine) (g : String) (hm : g ≠ "MALE") (hf : g ≠ "FEMALE") :
    dubbingText [] = "" ∧
    dubbingText [l] = l.translated ∧
    dubbingText (l :: l2 :: rest) = l.translated ++ "\n" ++ dubbingText (l2 :: rest) ∧
    (synthesisRequest lines g).text = dubbingText lines ∧
    voiceNameFor "MALE" = VOICES.MALE ∧
    voiceNameFor "FEMALE" = VOICES.FEMALE ∧
    voiceNameFor g = VOICES.NEUTRAL ∧
    (synthesisRequest lines g).voiceName = VOICES.NEUTRAL := by
  refine ⟨rfl, rfl, ?_, rfl, rfl, rfl, ?_, ?_⟩
  · simp only [dubbingText, List.map_cons]
    exact intercalate_cons_cons "\n" l.translated l2.translated (rest.map (fun x => x.translated))
  · simp [voiceNameFor, hm, hf]
  · simp [synthesisRequest, voiceNameFor, hm, hf]

/-- Witness for C3 at concrete lines and the gender value UNKNOWN. -/
theorem synthesize_text_and_voice_witness :
    dubbingText [] = "" ∧
    dubbingText [{ original := "a", translated := "b" }] =
      TranslatedLine.translated { original := "a", translated := "b" } ∧
    dubbingText [{ original := "a", translated := "b" },
        { original := "c", translated := "d" }] =
      TranslatedLine.translated { original := "a", translated := "b" } ++ "\n" ++
        dubbingText [{ original := "c", translated := "d" }] ∧
    (synthesisRequest [] "UNKNOWN").text = dubbingText [] ∧
    voiceNameFor "MALE" = VOICES.MALE ∧
    voiceNameFor "FEMALE" = VOICES.FEMALE ∧
    voiceNameFor "UNKNOWN" = VOICES.NEUTRAL ∧
    (synthesisRequest [] "UNKNOWN").voiceName = VOICES.NEUTRAL :=
  synthesize_text_and_voice [] [] { original := "a", translated := "b" }
    { original := "c", translated := "d" } "UNKNOWN" (by decide) (by decide)

/-! ## Theorems: reset, file-size validation, guard no-ops -/

/-- C6: reset from any state and any session contents returns to IDLE with
every Session field, the error field and the loading flag at their initial
values; both playable media resource handles (the source-file object URL and
the dubbed-audio object URL) are dropped. -/
theorem reset_restores_initial_state (m : Model) :
    (resetApp m).state = AppState.IDLE ∧
    (resetApp m).songData.file = none ∧
    (resetApp m).songData.audioUrl = none ∧
    (resetApp m).songData.analysis = none ∧
    (resetApp m).songData.translations = [] ∧
    (resetApp m).songData.targetLanguage = "Spanish" ∧
    (resetApp m).songData.dubbedAudioUrl = none ∧
    (resetApp m).error = none ∧
    (resetApp m).isDubbingLoading = false ∧
    resetApp m = initialModel :=
  ⟨rfl, rfl, rfl, rfl, rfl, rfl, rfl, rfl, rfl, rfl⟩

/-- C7: a selected file above the fixed 10 MiB threshold is rejected
synchronously: the input-too-large error is recorded, the state and every
Session field are untouched, and no Gateway request is emitted. -/
theorem oversized_file_rejected (m : Model) (f : FileData) (url : String)
    (h : 10 * 1024 * 1024 < f.size) :
    (handleFileUpload m (some f) url).1.state = m.state ∧
    (handleFileUpload m (some f) url).1.songData = m.songData ∧
    (handleFileUpload m (some f) url).1.error =
      some "File size must be less than 10MB for this demo." ∧
    (handleFileUpload m (some f) url).2 = none := by
  simp [handleFileUpload, h]

/-- Witness for C7 at a 12 MB (12582912-byte) file. -/
theorem oversized_file_rejected_witness :
    10 * 1024 * 1024 < 12582912 ∧
    ((handleFileUpload initialModel
        (some { name := "big.mp3", size := 12582912, mimeType := "audio/mpeg" })
        "blob:big").1.state = initialModel.state ∧
      (handleFileUpload initialModel
        (some { name := "big.mp3", size := 12582912, mimeType := "audio/mpeg" })
        "blob:big").1.songData = initialModel.songData ∧
      (handleFileUpload initialModel
        (some { name := "big.mp3", size := 12582912, mimeType := "audio/mpeg" })
        "blob:big").1.error = some "File size must be less than 10MB for this demo." ∧
      (handleFileUpload initialModel
        (some { name := "big.mp3", size := 12582912, mimeType := "audio/mpeg" })
        "blob:big").2 = none) :=
  ⟨by norm_num,
    oversized_file_rejected initialModel
      { name := "big.mp3", size := 12582912, mimeType := "audio/mpeg" } "blob:big"
      (by norm_num)⟩

/-- C10: each pipeline trigger invoked without its required data is a complete
no-op: the model is unchanged and no Gateway request is emitted. -/
theorem triggers_without_data_noop (m1 m2 m3 : Model)
    (h1 : m1.songData.file = none)
    (h2 : m2.songData.analysis = none)
    (h3 : m3.songData.analysis = none ∨ m3.songData.translations = []) :
    startAnalysisBegin m1 = (m1, none) ∧
    handleTranslateBegin m2 = (m2, none) ∧
    handleDubbingBegin m3 = (m3, none) := by
  refine ⟨?_, ?_, ?_⟩
  · simp [startAnalysisBegin, h1]
  · simp [handleTranslateBegin, h2]
  · rcases h3 with h | h
    · simp [handleDubbingBegin, h]
    · cases ha : m3.songData.analysis with
      | none => simp [handleDubbingBegin, ha]
      | some a => simp [handleDubbingBegin, ha, h]

/-- Witness for C10 at the initial model. -/
theorem triggers_without_data_noop_witness :
    (initialModel.songData.file = none ∧ initialModel.songData.analysis = none ∧
      (initialModel.songData.analysis = none ∨
        initialModel.songData.translations = [])) ∧
    (startAnalysisBegin initialModel = (initialModel, none) ∧
      handleTranslateBegin initialModel = (initialModel, none) ∧
      handleDubbingBegin initialModel = (initialModel, none)) :=
  ⟨⟨rfl, rfl, Or.inl rfl⟩,
    triggers_without_data_noop initialModel initialModel initialModel rfl rfl (Or.inl rfl)⟩

/-! ## Theorems: synthesis response inspection (C9) -/

/-- C9: when the first part carries both refusal text and nonempty inline
audio data, `generateDubbedAudio` succeeds with the WAV resource built from
the audio bytes, and raises no error at all — the refusal failure needs the
inline audio data to be absent. -/
theorem synthesis_audio_overrides_text (resp : GenResponse) (p : ResponsePart)
    (t : String) (d : List Nat)
    (hp : firstPart resp = some p) (ht : p.text = some t)
    (hd : p.inlineData = some { data := d }) (hne : d ≠ []) :
    generateDubbedAudioResult resp = Except.ok (createWavBytes d) ∧
    ∀ e, generateDubbedAudioResult resp ≠ Except.error e := by
  have hfp : (resp.candidates.head?.bind (fun c => c.content)).bind
      (fun c => c.parts.head?) = some p := hp
  have key : generateDubbedAudioResult resp = Except.ok (createWavBytes d) := by
    simp only [generateDubbedAudioResult]
    rw [hfp]
    simp [hd, hne]
  refine ⟨key, fun e he => ?_⟩
  rw [key] at he
  exact Except.noConfusion he

/-- A response part holding both refusal text and audio bytes. -/
def partWithBoth : ResponsePart :=
  { text := some "cannot sing this", inlineData := some { data := [1, 2] } }

/-- A response whose only candidate carries `partWithBoth`. -/
def respWithBoth : GenResponse :=
  { candidates := [{ content := some { parts := [partWithBoth] }, finishReason := none }] }

/-- Witness for C9 at a concrete response holding both text and audio. -/
theorem synthesis_audio_overrides_text_witness :
    generateDubbedAudioResult respWithBoth = Except.ok (createWavBytes [1, 2]) ∧
    ∀ e, generateDubbedAudioResult respWithBoth ≠ Except.error e :=
  synthesis_audio_overrides_text respWithBoth partWithBoth
    "cannot sing this" [1, 2] rfl rfl rfl (by decide)

/-! ## Theorems: orchestrator invariants -/

/-- Field preservation of `handleFileUpload`. -/
theorem handleFileUpload_fields (m : Model) (f : Option FileData) (url : String) :
    (handleFileUpload m f url).1.state = m.state ∧
    (handleFileUpload m f url).1.songData.analysis = m.songData.analysis ∧
    (handleFileUpload m f url).1.songData.translations = m.songData.translations ∧
    (handleFileUpload m f url).1.songData.dubbedAudioUrl = m.songData.dubbedAudioUrl := by
  cases f with
  | none => exact ⟨rfl, rfl, rfl, rfl⟩
  | some file =>
    by_cases h : 10 * 1024 * 1024 < file.size <;> simp [handleFileUpload, h]

/-- The inductive invariant of the orchestrator transition system. -/
def Inv (c : Config) : Prop :=
  ((c.model.state = AppState.IDLE ∨ c.model.state = AppState.ANALYZING ∨
      c.model.state = AppState.LYRICS_REVIEW) →
    c.model.songData.translations = [] ∧ c.model.songData.dubbedAudioUrl = none) ∧
  (c.model.state = AppState.IDLE → c.model.songData.analysis = none) ∧
  (c.phase = Phase.awaitingAnalysis →
    c.model.state = AppState.ANALYZING ∧ c.model.songData.analysis = none) ∧
  (c.phase = Phase.awaitingTranslation →
    c.model.state = AppState.ANALYZING ∧ c.model.songData.analysis.isSome = true) ∧
  (c.phase = Phase.awaitingSynthesis → c.model.state = AppState.DUBBING)

/-- The invariant holds at start. -/
theorem inv_initial : Inv initialConfig := by
  unfold Inv
  refine ⟨fun _ => ⟨rfl, rfl⟩, fun _ => rfl, fun h => ?_, fun h => ?_, fun h => ?_⟩ <;>
    simp [initialConfig] at h

/-- Every step preserves the invariant. -/
theorem step_preserves_inv {c c2 : Config} (hs : Step c c2) (ih : Inv c) : Inv c2 := by
  obtain ⟨i1, i2, i3, i4, i5⟩ := ih
  cases hs with
  | fileUpload f url hph hst =>
    cases f with
    | none =>
      unfold Inv
      refine ⟨fun h => ?_, fun h => ?_, fun h => ?_, fun h => ?_, fun h => ?_⟩
      · exact i1 h
      · exact i2 h
      · simp at h
      · simp at h
      · simp at h
    | some file =>
      by_cases hsz : 10 * 1024 * 1024 < file.size
      · have hM : (handleFileUpload c.model (some file) url).1 =
            { c.model with
                error := some "File size must be less than 10MB for this demo." } := by
          simp [handleFileUpload, hsz]
        rw [hM]
        unfold Inv
        refine ⟨fun h => ?_, fun h => ?_, fun h => ?_, fun h => ?_, fun h => ?_⟩
        · exact i1 h
        · exact i2 h
        · simp at h
        · simp at h
        · simp at h
      · have hM : (handleFileUpload c.model (some file) url).1 =
            { c.model with
                songData := { c.model.songData with file := some file, audioUrl := some url },
                error := none } := by
          simp [handleFileUpload, hsz]
        rw [hM]
        unfold Inv
        refine ⟨fun h => ?_, fun h => ?_, fun h => ?_, fun h => ?_, fun h => ?_⟩
        · exact i1 h
        · exact i2 h
        · simp at h
        · simp at h
        · simp at h
  | analysisBegin hph hst hf =>
    obtain ⟨file, hfile⟩ := Option.isSome_iff_exists.mp hf
    have hM : (startAnalysisBegin c.model).1 =
        { c.model with state := AppState.ANALYZING } := by
      simp [startAnalysisBegin, hfile]
    rw [hM]
    unfold Inv
    refine ⟨fun h => ?_, fun h => ?_, fun h => ?_, fun h => ?_, fun h => ?_⟩
    · exact i1 (Or.inl hst)
    · simp at h
    · exact ⟨rfl, i2 hst⟩
    · simp at h
    · simp at h
  | analysisResolve r hph =>
    obtain ⟨hstA, hanN⟩ := i3 hph
    cases r with
    | ok a =>
      have hM : startAnalysisResolve c.model (Except.ok a) =
          { c.model with
              songData := { c.model.songData with analysis := some a },
              state := AppState.LYRICS_REVIEW } := rfl
      rw [hM]
      unfold Inv
      refine ⟨fun h => ?_, fun h => ?_, fun h => ?_, fun h => ?_, fun h => ?_⟩
      · exact i1 (Or.inr (Or.inl hstA))
      · simp at h
      · simp at h
      · simp at h
      · simp at h
    | error e =>
      have hM : startAnalysisResolve c.model (Except.error e) =
          { c.model with
              error := some (orFallback e "Analysis failed. Please try again."),
              state := AppState.IDLE } := rfl
      rw [hM]
      unfold Inv
      refine ⟨fun h => ?_, fun h => ?_, fun h => ?_, fun h => ?_, fun h => ?_⟩
      · exact i1 (Or.inr (Or.inl hstA))
      · exact hanN
      · simp at h
      · simp at h
      · simp at h
  | languageSelect code hph hst han =>
    unfold Inv
    refine ⟨fun h => ?_, fun h => ?_, fun h => ?_, fun h => ?_, fun h => ?_⟩
    · exact i1 h
    · exact i2 h
    · simp at h
    · simp at h
    · simp at h
  | translateBegin hph hst han =>
    obtain ⟨a, ha⟩ := Option.isSome_iff_exists.mp han
    have hM : (handleTranslateBegin c.model).1 =
        { c.model with state := AppState.ANALYZING } := by
      simp [handleTranslateBegin, ha]
    rw [hM]
    unfold Inv
    refine ⟨fun h => ?_, fun h => ?_, fun h => ?_, fun h => ?_, fun h => ?_⟩
    · exact i1 (Or.inr (Or.inr hst))
    · simp at h
    · simp at h
    · exact ⟨rfl, han⟩
    · simp at h
  | translateResolve r hph =>
    obtain ⟨hstA, hanS⟩ := i4 hph
    cases r with
    | ok ts =>
      have hM : handleTranslateResolve c.model (Except.ok ts) =
          { c.model with
              songData := { c.model.songData with translations := ts },
              state := AppState.DUBBING } := rfl
      rw [hM]
      unfold Inv
      refine ⟨fun h => ?_, fun h => ?_, fun h => ?_, fun h => ?_, fun h => ?_⟩
      · simp at h
      · simp at h
      · simp at h
      · simp at h
      · simp at h
    | error e =>
      have hM : handleTranslateResolve c.model (Except.error e) =
          { c.model with
              error := some (orFallback e "Translation failed."),
              state := AppState.LYRICS_REVIEW } := rfl
      rw [hM]
      unfold Inv
      refine ⟨fun h => ?_, fun h => ?_, fun h => ?_, fun h => ?_, fun h => ?_⟩
      · exact i1 (Or.inr (Or.inl hstA))
      · simp at h
      · simp at h
      · simp at h
      · simp at h
  | dubbingBegin hph hst han htr =>
    obtain ⟨a, ha⟩ := Option.isSome_iff_exists.mp han
    have hM : (handleDubbingBegin c.model).1 =
        { c.model with isDubbingLoading := true, error := none } := by
      simp [handleDubbingBegin, ha, htr]
    rw [hM]
    unfold Inv
    refine ⟨fun h => ?_, fun h => ?_, fun h => ?_, fun h => ?_, fun h => ?_⟩
    · simp [hst] at h
    · simp [hst] at h
    · simp at h
    · simp at h
    · exact hst
  | dubbingResolve r hph =>
    have hstD := i5 hph
    cases r with
    | ok url =>
      have hM : handleDubbingResolve c.model (Except.ok url) =
          { c.model with
              songData := { c.model.songData with dubbedAudioUrl := some url },
              state := AppState.COMPLETE, isDubbingLoading := false } := rfl
      rw [hM]
      unfold Inv
      refine ⟨fun h => ?_, fun h => ?_, fun h => ?_, fun h => ?_, fun h => ?_⟩
      · simp at h
      · simp at h
      · simp at h
      · simp at h
      · simp at h
    | error e =>
      have hM : handleDubbingResolve c.model (Except.error e) =
          { c.model with
              error := some (orFallback e "Dubbing generation failed."),
              isDubbingLoading := false } := rfl
      rw [hM]
      unfold Inv
      refine ⟨fun h => ?_, fun h => ?_, fun h => ?_, fun h => ?_, fun h => ?_⟩
      · simp [hstD] at h
      · simp [hstD] at h
      · simp at h
      · simp at h
      · simp at h
  | reset hph =>
    exact inv_initial

/-- The invariant holds in every reachable configuration. -/
theorem reachable_inv {c : Config} (h : Reachable c) : Inv c := by
  induction h with
  | start => exact inv_initial
  | step hr hs ih => exact step_preserves_inv hs ih

/-- C2: in every reachable configuration, `translations` is unpopulated while
the state is IDLE or ANALYZING, and `dubbedAudioUrl` is unpopulated while the
state is LYRICS_REVIEW. -/
theorem orchestrator_population_invariant (c : Config) (h : Reachable c) :
    ((c.model.state = AppState.IDLE ∨ c.model.state = AppState.ANALYZING) →
      c.model.songData.translations = []) ∧
    (c.model.state = AppState.LYRICS_REVIEW →
      c.model.songData.dubbedAudioUrl = none) := by
  obtain ⟨i1, _, _, _, _⟩ := reachable_inv h
  refine ⟨fun hs => ?_, fun hs => ?_⟩
  · exact (i1 (hs.elim Or.inl (fun x => Or.inr (Or.inl x)))).1
  · exact (i1 (Or.inr (Or.inr hs))).2

/-- Witness for C2 at the initial configuration. -/
theorem orchestrator_population_invariant_witness :
    ((initialConfig.model.state = AppState.IDLE ∨
        initialConfig.model.state = AppState.ANALYZING) →
      initialConfig.model.songData.translations = []) ∧
    (initialConfig.model.state = AppState.LYRICS_REVIEW →
      initialConfig.model.songData.dubbedAudioUrl = none) :=
  orchestrator_population_invariant initialConfig Reachable.start

/-! ## Theorems: failure handling at transition boundaries (C4, C5, C8) -/

/-- C4: while an analysis call is in flight in any reachable configuration,
any failure outcome leaves `analysis` unset, returns the state machine to
IDLE, and records a user-visible error message. -/
theorem startAnalysis_failure_reverts (c : Config) (e : String)
    (hr : Reachable c) (hph : c.phase = Phase.awaitingAnalysis) :
    (startAnalysisResolve c.model (Except.error e)).songData.analysis = none ∧
    (startAnalysisResolve c.model (Except.error e)).songData.analysis =
      c.model.songData.analysis ∧
    (startAnalysisResolve c.model (Except.error e)).state = AppState.IDLE ∧
    (startAnalysisResolve c.model (Except.error e)).error =
      some (orFallback e "Analysis failed. Please try again.") := by
  obtain ⟨_, _, i3, _, _⟩ := reachable_inv hr
  obtain ⟨hstA, hanN⟩ := i3 hph
  exact ⟨hanN, rfl, rfl, rfl⟩

/-- C5: while a translation call is in flight in any reachable configuration,
any failure outcome leaves `translations` empty, returns the state machine to
LYRICS_REVIEW, keeps the previously stored analysis unchanged (and present),
and records an error message. -/
theorem startTranslation_failure_reverts (c : Config) (e : String)
    (hr : Reachable c) (hph : c.phase = Phase.awaitingTranslation) :
    (handleTranslateResolve c.model (Except.error e)).songData.translations = [] ∧
    (handleTranslateResolve c.model (Except.error e)).state = AppState.LYRICS_REVIEW ∧
    (handleTranslateResolve c.model (Except.error e)).songData.analysis =
      c.model.songData.analysis ∧
    ((handleTranslateResolve c.model (Except.error e)).songData.analysis).isSome = true ∧
    (handleTranslateResolve c.model (Except.error e)).error =
      some (orFallback e "Translation failed.") := by
  obtain ⟨i1, _, _, i4, _⟩ := reachable_inv hr
  obtain ⟨hstA, hanS⟩ := i4 hph
  have htr : c.model.songData.translations = [] := (i1 (Or.inr (Or.inl hstA))).1
  exact ⟨htr, rfl, rfl, hanS, rfl⟩

/-- The refusal message is never the empty string. -/
theorem refusalErrorMsg_ne_empty (t : String) : refusalErrorMsg t ≠ "" := by
  intro hEq
  have hlen := congrArg String.length hEq
  have hpre : ("Model refused or failed to generate audio: ").length = 43 := by decide
  rw [refusalErrorMsg, String.length_append, hpre] at hlen
  simp at hlen

/-- C8: a synthesis response whose first part carries only (nonempty) refusal
text and no inline audio makes `generateDubbedAudio` fail with an error
carrying that text; on that failure the orchestrator stays in DUBBING,
records the error message, and clears the loading flag. -/
theorem synthesis_refusal_keeps_dubbing (resp : GenResponse) (p : ResponsePart)
    (t : String) (c : Config)
    (hp : firstPart resp = some p) (ht : p.text = some t) (htne : t ≠ "")
    (ha : p.inlineData = none)
    (hr : Reachable c) (hph : c.phase = Phase.awaitingSynthesis) :
    generateDubbedAudioResult resp = Except.error (refusalErrorMsg t) ∧
    (handleDubbingResolve c.model (Except.error (refusalErrorMsg t))).state =
      AppState.DUBBING ∧
    (handleDubbingResolve c.model (Except.error (refusalErrorMsg t))).error =
      some (refusalErrorMsg t) ∧
    (handleDubbingResolve c.model (Except.error (refusalErrorMsg t))).isDubbingLoading =
      false := by
  have hfp : (resp.candidates.head?.bind (fun c => c.content)).bind
      (fun c => c.parts.head?) = some p := hp
  obtain ⟨_, _, _, _, i5⟩ := reachable_inv hr
  have hstD := i5 hph
  refine ⟨?_, hstD, ?_, rfl⟩
  · simp only [generateDubbedAudioResult]
    rw [hfp]
    simp [ha, ht, htne]
  · have hne := refusalErrorMsg_ne_empty t
    simp [handleDubbingResolve, orFallback, hne]

/-! ## Reachable witness configurations -/

/-- A small in-range test file. -/
def fileSmall : FileData := { name := "song.mp3", size := 1024, mimeType := "audio/mpeg" }

/-- Configuration after uploading `fileSmall`. -/
def configUploaded : Config :=
  { model := (handleFileUpload initialModel (some fileSmall) "blob:src").1,
    phase := Phase.ready }

/-- Configuration while the analysis call is in flight. -/
def configAwaitingAnalysis : Config :=
  { model := (startAnalysisBegin configUploaded.model).1,
    phase := Phase.awaitingAnalysis }

/-- A concrete analysis outcome. -/
def analysisA : AnalysisResult :=
  { language := "English", genre := "Pop", bpm := 120, emotion := "Joyful",
    gender := "FEMALE", lyrics := ["la la"], summary := "Bright vocals." }

/-- Configuration after a successful analysis. -/
def configLyrics : Config :=
  { model := startAnalysisResolve configAwaitingAnalysis.model (Except.ok analysisA),
    phase := Phase.ready }

/-- Configuration while the translation call is in flight. -/
def configAwaitingTranslation : Config :=
  { model := (handleTranslateBegin configLyrics.model).1,
    phase := Phase.awaitingTranslation }

/-- A concrete translated line. -/
def lineA : TranslatedLine := { original := "la la", translated := "la la es" }

/-- Configuration after a successful translation. -/
def configDubbing : Config :=
  { model := handleTranslateResolve configAwaitingTranslation.model (Except.ok [lineA]),
    phase := Phase.ready }

/-- Configuration while the synthesis call is in flight. -/
def configAwaitingSynthesis : Config :=
  { model := (handleDubbingBegin configDubbing.model).1,
    phase := Phase.awaitingSynthesis }

theorem reachable_configUploaded : Reachable configUploaded :=
  Reachable.step Reachable.start
    (Step.fileUpload initialConfig (some fileSmall) "blob:src" rfl rfl)

theorem reachable_configAwaitingAnalysis : Reachable configAwaitingAnalysis :=
  Reachable.step reachable_configUploaded
    (Step.analysisBegin configUploaded rfl rfl rfl)

theorem reachable_configLyrics : Reachable configLyrics :=
  Reachable.step reachable_configAwaitingAnalysis
    (Step.analysisResolve configAwaitingAnalysis (Except.ok analysisA) rfl)

theorem reachable_configAwaitingTranslation : Reachable configAwaitingTranslation :=
  Reachable.step reachable_configLyrics
    (Step.translateBegin configLyrics rfl rfl rfl)

theorem reachable_configDubbing : Reachable configDubbing :=
  Reachable.step reachable_configAwaitingTranslation
    (Step.translateResolve configAwaitingTranslation (Except.ok [lineA]) rfl)

theorem reachable_configAwaitingSynthesis : Reachable configAwaitingSynthesis :=
  Reachable.step reachable_configDubbing
    (Step.dubbingBegin configDubbing rfl rfl rfl (by decide))

/-- Witness for C4 at a concrete reachable in-flight analysis. -/
theorem startAnalysis_failure_reverts_witness :
    (startAnalysisResolve configAwaitingAnalysis.model
        (Except.error "network down")).songData.analysis = none ∧
    (startAnalysisResolve configAwaitingAnalysis.model
        (Except.error "network down")).songData.analysis =
      configAwaitingAnalysis.model.songData.analysis ∧
    (startAnalysisResolve configAwaitingAnalysis.model
        (Except.error "network down")).state = AppState.IDLE ∧
    (startAnalysisResolve configAwaitingAnalysis.model
        (Except.error "network down")).error =
      some (orFallback "network down" "Analysis failed. Please try again.") :=
  startAnalysis_failure_reverts configAwaitingAnalysis "network down"
    reachable_configAwaitingAnalysis rfl

/-- Witness for C5 at a concrete reachable in-flight translation. -/
theorem startTranslation_failure_reverts_witness :
    (handleTranslateResolve configAwaitingTranslation.model
        (Except.error "quota exceeded")).songData.translations = [] ∧
    (handleTranslateResolve configAwaitingTranslation.model
        (Except.error "quota exceeded")).state = AppState.LYRICS_REVIEW ∧
    (handleTranslateResolve configAwaitingTranslation.model
        (Except.error "quota exceeded")).songData.analysis =
      configAwaitingTranslation.model.songData.analysis ∧
    ((handleTranslateResolve configAwaitingTranslation.model
        (Except.error "quota exceeded")).songData.analysis).isSome = true ∧
    (handleTranslateResolve configAwaitingTranslation.model
        (Except.error "quota exceeded")).error =
      some (orFallback "quota exceeded" "Translation failed.") :=
  startTranslation_failure_reverts configAwaitingTranslation "quota exceeded"
    reachable_configAwaitingTranslation rfl

/-- A response part carrying only refusal text. -/
def partTextOnly : ResponsePart := { text := some "cannot comply", inlineData := none }

/-- A candidate carrying `partTextOnly` only. -/
def candTextOnly : Candidate :=
  { content := some { parts := [partTextOnly] }, finishReason := some "STOP" }

/-- A response whose only candidate carries `partTextOnly`. -/
def respTextOnly : GenResponse := { candidates := [candTextOnly] }

/-- Witness for C8 at a concrete text-only response and a concrete reachable
in-flight synthesis. -/
theorem synthesis_refusal_keeps_dubbing_witness :
    generateDubbedAudioResult respTextOnly =
      Except.error (refusalErrorMsg "cannot comply") ∧
    (handleDubbingResolve configAwaitingSynthesis.model
        (Except.error (refusalErrorMsg "cannot comply"))).state = AppState.DUBBING ∧
    (handleDubbingResolve configAwaitingSynthesis.model
        (Except.error (refusalErrorMsg "cannot comply"))).error =
      some (refusalErrorMsg "cannot comply") ∧
    (handleDubbingResolve configAwaitingSynthesis.model
        (Except.error (refusalErrorMsg "cannot comply"))).isDubbingLoading = false :=
  synthesis_refusal_keeps_dubbing respTextOnly partTextOnly "cannot comply"
    configAwaitingSynthesis rfl rfl (by decide) rfl
    reachable_configAwaitingSynthesis rfl

end SonicDub
